import Mathlib

/-!
Verification of the doro desktop-pet state-machine subsystem.

The repository implements a stack-based behavior state machine for a desktop
pet.  The file `src/state/clicked_state_handler.py` (the CLICKED handler) is
embedded here directly from its source.  The `StateMachine` / `StateStack`
engine and the other handlers are not part of the provided sources (only the
CLICKED handler, the config reader, the resource layer and a superseded
prototype window are), so the engine operations `transition_to`,
`push_state`, `pop_state` and the RANDOM_MOVE idle-wander handler are
modelled from the specification, as marked on each definition.
-/

/-- The closed enumeration of pet behavior modes (`PetState` in
`base_state.py`, referenced from `clicked_state_handler.py`). -/
inductive PetState where
  | IDLE
  | DRAGGING
  | CLICKED
  | RANDOM_MOVE
deriving DecidableEq, Repr

/-- Mouse buttons, embedding `Qt.MouseButton` as used by the handler. -/
inductive MouseButton where
  | LeftButton
  | RightButton
  | MiddleButton
deriving DecidableEq, Repr

/-- Mouse event types, embedding the `QEvent.Type` values a `QMouseEvent`
can carry. -/
inductive MouseEventType where
  | MouseButtonPress
  | MouseButtonRelease
  | MouseMove
  | MouseButtonDblClick
deriving DecidableEq, Repr

/-- An input event: either a `QMouseEvent` (with its type and button) or
some non-mouse `QEvent`.  The `isinstance(event, QMouseEvent)` test in the
source corresponds to matching the `mouse` constructor. -/
inductive Event where
  | mouse (ty : MouseEventType) (btn : MouseButton)
  | nonMouse
deriving DecidableEq, Repr

/-- A single-shot `QTimer`: `active` is whether it is running, `deadline`
the absolute virtual time (ms) at which it would fire.  `setSingleShot(True)`
is reflected in `Machine.advance`, which deactivates the timer when it
fires. -/
structure QTimer where
  active : Bool
  deadline : Nat
deriving DecidableEq, Repr

/-- The audio player sink (`pet_window.audio_player`): a current source and
a playing flag. -/
structure AudioPlayer where
  playing : Bool
  source : Option String
deriving DecidableEq, Repr

/-- Which handler lifecycle phase an observable effect belongs to. -/
inductive Phase where
  | enterP (s : PetState)
  | exitP (s : PetState)
deriving DecidableEq, Repr

/-- An observable side-effect action: sink calls and timer operations,
plus a `mark` recorded by the machine when a lifecycle method is invoked. -/
inductive SinkAction where
  | mark
  | playGif (path : String)
  | audioSet (src : String)
  | audioPlay
  | audioStop
  | timerStart (ms : Nat)
  | timerStop
deriving DecidableEq, Repr

/-- One entry of the effect trace: the phase it was issued from and the
action performed. -/
structure TraceEvent where
  phase : Phase
  action : SinkAction
deriving DecidableEq, Repr

/-- The resource environment seen by the CLICKED handler:
`clickGifs` is `resource_manager.get_gif("Click")`, `doubleClickMusic` is
`get_music("DoubleClick")`, and `doubleClickMusicPathExists` is the
`os.path.exists(Config.PATH_CONFIG["Resources"]["Music"]["DoubleClick"])`
check in `on_enter`. -/
structure Resources where
  clickGifs : List String
  doubleClickMusic : List String
  doubleClickMusicPathExists : Bool
deriving DecidableEq, Repr

/-- `random.choice` over a file list, with the randomness supplied as an
index oracle `r`: returns `none` exactly when the list is empty
(`MainLayer.random_gif` / `random_music` return `None` then). -/
def random_choice (r : Nat) (files : List String) : Option String :=
  if files.isEmpty then none else files.get? (r % files.length)

/-- `MainLayer.random_gif("Click")` from `MainLayer/__init__.py`. -/
def MainLayer.random_gif_click (res : Resources) (r : Nat) : Option String :=
  random_choice r res.clickGifs

/-- `MainLayer.random_music("DoubleClick")` from `MainLayer/__init__.py`. -/
def MainLayer.random_music_doubleclick (res : Resources) (r : Nat) : Option String :=
  random_choice r res.doubleClickMusic

/-- The machine state: virtual clock, state stack (head is the current
state), the CLICKED handler instance timer `click_end_timer` (handlers are
cached one-per-state, so a single field suffices), the audio sink, the
currently displayed animation, and the trace of observable effects. -/
structure Machine where
  now : Nat
  stack : List PetState
  click_end_timer : QTimer
  audio : AudioPlayer
  animation : Option String
  trace : List TraceEvent
deriving DecidableEq, Repr

/-- The current state of the machine: top of the state stack
(`state_machine.current_state`). -/
def Machine.current_state (m : Machine) : Option PetState :=
  m.stack.head?

/-- Record an observable effect in the trace. -/
def emit (ph : Phase) (a : SinkAction) (m : Machine) : Machine :=
  { m with trace := m.trace ++ [⟨ph, a⟩] }

/-- `pet_window.play_gif(path)`: show the animation and log the request. -/
def play_gif (ph : Phase) (path : String) (m : Machine) : Machine :=
  emit ph (SinkAction.playGif path) { m with animation := some path }

/-- `audio_player.setSource(...)`. -/
def audioSetSource (ph : Phase) (src : String) (m : Machine) : Machine :=
  emit ph (SinkAction.audioSet src) { m with audio := { m.audio with source := some src } }

/-- `audio_player.play()`. -/
def audioPlayOp (ph : Phase) (m : Machine) : Machine :=
  emit ph SinkAction.audioPlay { m with audio := { m.audio with playing := true } }

/-- `audio_player.stop()`. -/
def audioStopOp (ph : Phase) (m : Machine) : Machine :=
  emit ph SinkAction.audioStop { m with audio := { m.audio with playing := false } }

/-- `click_end_timer.start(ms)`: arm the single-shot timer to fire `ms`
milliseconds from the current virtual time. -/
def timerStartOp (ph : Phase) (ms : Nat) (m : Machine) : Machine :=
  emit ph (SinkAction.timerStart ms)
    { m with click_end_timer := { active := true, deadline := m.now + ms } }

/-- `click_end_timer.stop()`. -/
def timerStopOp (ph : Phase) (m : Machine) : Machine :=
  emit ph SinkAction.timerStop
    { m with click_end_timer := { m.click_end_timer with active := false } }

namespace ClickedStateHandler

/-- `ClickedStateHandler.on_enter` from `clicked_state_handler.py`:
pick a random Click gif and play it if one exists; if the DoubleClick music
path exists, set the audio source to a random DoubleClick track (or the
empty string), start playback, and start the 18000 ms single-shot
`click_end_timer`. -/
def on_enter (res : Resources) (r : Nat) (m : Machine) : Machine :=
  let ph := Phase.enterP PetState.CLICKED
  let m :=
    match MainLayer.random_gif_click res r with
    | some gifPath => play_gif ph gifPath m
    | none => m
  if res.doubleClickMusicPathExists then
    let src := (MainLayer.random_music_doubleclick res r).getD ""
    timerStartOp ph 18000 (audioPlayOp ph (audioSetSource ph src m))
  else
    m

/-- `ClickedStateHandler.on_exit` from `clicked_state_handler.py`:
stop the `click_end_timer`, then stop the audio player. -/
def on_exit (m : Machine) : Machine :=
  let ph := Phase.exitP PetState.CLICKED
  audioStopOp ph (timerStopOp ph m)

end ClickedStateHandler

/-- Modelled from the spec: the per-state handler dispatch for `on_enter`.
Handlers other than `ClickedStateHandler` are not under the provided
sources; per the spec variant table their enter effects touch no field of
this machine (IDLE plays an idle animation through the same sink, DRAGGING
has no entry effect), so they are modelled as recording only the lifecycle
mark.  The machine records a mark for every handler, CLICKED included. -/
def handlerOnEnter (res : Resources) (r : Nat) (s : PetState) (m : Machine) : Machine :=
  let m := emit (Phase.enterP s) SinkAction.mark m
  match s with
  | PetState.CLICKED => ClickedStateHandler.on_enter res r m
  | _ => m

/-- Modelled from the spec: the per-state handler dispatch for `on_exit`;
see `handlerOnEnter` for the treatment of handlers outside the sources. -/
def handlerOnExit (s : PetState) (m : Machine) : Machine :=
  let m := emit (Phase.exitP s) SinkAction.mark m
  match s with
  | PetState.CLICKED => ClickedStateHandler.on_exit m
  | _ => m

namespace StateMachine

/-- Modelled from the spec: `StateMachine.transition_to(state)` exits the
current handler, replaces the top of the stack with the new state, then
enters the new handler. -/
def transition_to (res : Resources) (r : Nat) (s : PetState) (m : Machine) : Machine :=
  match m.stack with
  | cur :: rest =>
      handlerOnEnter res r s { handlerOnExit cur m with stack := s :: rest }
  | [] => m

/-- Modelled from the spec: `StateMachine.push_state(state)` pushes the new
state on the stack (the previous state stays suspended, its exit is not
invoked) and enters the new handler. -/
def push_state (res : Resources) (r : Nat) (s : PetState) (m : Machine) : Machine :=
  handlerOnEnter res r s { m with stack := s :: m.stack }

/-- Modelled from the spec: `StateMachine.pop_state()` removes the top
state (calling its exit), then re-enters the now-top previous state; it is
a no-op when the stack holds at most one element (the base state cannot be
popped). -/
def pop_state (res : Resources) (r : Nat) (m : Machine) : Machine :=
  match m.stack with
  | cur :: prev :: rest =>
      handlerOnEnter res r prev { handlerOnExit cur m with stack := prev :: rest }
  | _ => m

end StateMachine

namespace ClickedStateHandler

/-- `ClickedStateHandler._on_click_end` from `clicked_state_handler.py`:
the timer callback pops the state only when the current state is still
CLICKED. -/
def on_click_end (res : Resources) (r : Nat) (m : Machine) : Machine :=
  if m.current_state = some PetState.CLICKED then
    StateMachine.pop_state res r m
  else
    m

/-- `ClickedStateHandler._handle_mouse_press` from
`clicked_state_handler.py`: a left-button press transitions to DRAGGING and
consumes the event; any other button is not consumed. -/
def handle_mouse_press (res : Resources) (r : Nat) (btn : MouseButton) (m : Machine) :
    Machine × Bool :=
  if btn = MouseButton.LeftButton then
    (StateMachine.transition_to res r PetState.DRAGGING m, true)
  else
    (m, false)

/-- `ClickedStateHandler.handle_event` from `clicked_state_handler.py`:
only a `QMouseEvent` of type `MouseButtonPress` is forwarded to
`handle_mouse_press`; everything else is not consumed. -/
def handle_event (res : Resources) (r : Nat) (e : Event) (m : Machine) :
    Machine × Bool :=
  match e with
  | Event.mouse ty btn =>
      if ty = MouseEventType.MouseButtonPress then
        handle_mouse_press res r btn m
      else
        (m, false)
  | Event.nonMouse => (m, false)

end ClickedStateHandler

/-- Modelled from the spec: virtual time advancing on the single dispatch
sequence.  If the single-shot `click_end_timer` is active and its deadline
falls within the advance, it fires: it is deactivated (single shot) and the
connected callback `ClickedStateHandler.on_click_end` runs on the same
sequence; otherwise only the clock moves. -/
def Machine.advance (res : Resources) (r : Nat) (dt : Nat) (m : Machine) : Machine :=
  let t := m.now + dt
  if m.click_end_timer.active = true ∧ m.click_end_timer.deadline ≤ t then
    ClickedStateHandler.on_click_end res r
      { m with now := t, click_end_timer := { m.click_end_timer with active := false } }
  else
    { m with now := t }

/-- A sequence of virtual-time advances. -/
def Machine.advances (res : Resources) (r : Nat) : List Nat → Machine → Machine
  | [], m => m
  | dt :: dts, m => Machine.advances res r dts (Machine.advance res r dt m)

/-- One engine operation, for quantifying over operation sequences. -/
inductive MachineOp where
  | push (s : PetState)
  | pop
  | transition (s : PetState)
deriving DecidableEq, Repr

/-- Apply one engine operation. -/
def Machine.applyOp (res : Resources) (r : Nat) (m : Machine) : MachineOp → Machine
  | MachineOp.push s => StateMachine.push_state res r s m
  | MachineOp.pop => StateMachine.pop_state res r m
  | MachineOp.transition s => StateMachine.transition_to res r s m

/-- Apply a sequence of engine operations. -/
def Machine.runOps (res : Resources) (r : Nat) : Machine → List MachineOp → Machine
  | m, [] => m
  | m, op :: ops => Machine.runOps res r (Machine.applyOp res r m op) ops

/-- The machine at window setup: base state IDLE at the bottom of the
stack, timer idle, no audio, no animation, empty trace. -/
def initMachine : Machine :=
  { now := 0
    stack := [PetState.IDLE]
    click_end_timer := { active := false, deadline := 0 }
    audio := { playing := false, source := none }
    animation := none
    trace := [] }

/-- Modelled from the spec: the configuration snapshot the idle-wander
handler reads; `allow_random_movement` mirrors `Config.allow_random_movement`
in `config.py` (section WORKSPACE, option ALLOW_RANDOM_MOVEMENT). -/
structure WanderConfig where
  allow_random_movement : Bool
deriving DecidableEq, Repr

/-- Modelled from the spec: the observable state of the RANDOM_MOVE
idle-wander handler, whose source is not under the provided files.  `cfg`
is its configuration snapshot and `autonomousMoves` the log of autonomous
behavior switches it has fired (each recorded with the random oracle used
for the weighted-random pick). -/
structure WanderState where
  cfg : WanderConfig
  autonomousMoves : List Nat
deriving DecidableEq, Repr

namespace RandomMoveHandler

/-- Modelled from the spec: the periodic autonomous-behavior timer firing;
it picks a weighted-random next behavior only when the configuration flag
allows random movement, and otherwise does nothing. -/
def on_timer (r : Nat) (st : WanderState) : WanderState :=
  if st.cfg.allow_random_movement then
    { st with autonomousMoves := st.autonomousMoves ++ [r] }
  else
    st

/-- Modelled from the spec: `update_config()` re-reads the configuration
flags in place, without a transition. -/
def update_config (c : WanderConfig) (st : WanderState) : WanderState :=
  { st with cfg := c }

/-- A sequence of periodic timer firings. -/
def run_timers : List Nat → WanderState → WanderState
  | [], st => st
  | r :: rs, st => run_timers rs (on_timer r st)

end RandomMoveHandler

/-- `m2` extends the trace of `m` only with effects issued from phase
`ph`. -/
def TraceExtends (ph : Phase) (m m2 : Machine) : Prop :=
  ∃ l, m2.trace = m.trace ++ l ∧ ∀ e ∈ l, e.phase = ph

/-- Concrete resource fixture: one Click gif, one DoubleClick track, and
the DoubleClick music path present. -/
def resFull : Resources :=
  { clickGifs := ["c.gif"], doubleClickMusic := ["m.mp3"], doubleClickMusicPathExists := true }

/-- Concrete resource fixture: no assets resolvable at all. -/
def resEmpty : Resources :=
  { clickGifs := [], doubleClickMusic := [], doubleClickMusicPathExists := false }

/-- Concrete resource fixture: a Click gif exists but the DoubleClick
music path is missing. -/
def resNoMusic : Resources :=
  { clickGifs := ["c.gif"], doubleClickMusic := [], doubleClickMusicPathExists := false }

/-- Concrete machine sitting in CLICKED above IDLE with the 18000 ms
expiry timer armed. -/
def mClicked : Machine :=
  { initMachine with
      stack := [PetState.CLICKED, PetState.IDLE]
      click_end_timer := { active := true, deadline := 18000 } }

/-! ### Field-preservation lemmas for the sink operations -/

@[simp] theorem emit_stack (ph : Phase) (a : SinkAction) (m : Machine) :
    (emit ph a m).stack = m.stack := rfl

@[simp] theorem emit_now (ph : Phase) (a : SinkAction) (m : Machine) :
    (emit ph a m).now = m.now := rfl

@[simp] theorem emit_timer (ph : Phase) (a : SinkAction) (m : Machine) :
    (emit ph a m).click_end_timer = m.click_end_timer := rfl

@[simp] theorem emit_audio (ph : Phase) (a : SinkAction) (m : Machine) :
    (emit ph a m).audio = m.audio := rfl

@[simp] theorem emit_animation (ph : Phase) (a : SinkAction) (m : Machine) :
    (emit ph a m).animation = m.animation := rfl

@[simp] theorem emit_trace (ph : Phase) (a : SinkAction) (m : Machine) :
    (emit ph a m).trace = m.trace ++ [⟨ph, a⟩] := rfl

theorem clicked_on_enter_stack (res : Resources) (r : Nat) (m : Machine) :
    (ClickedStateHandler.on_enter res r m).stack = m.stack := by
  unfold ClickedStateHandler.on_enter
  cases hg : MainLayer.random_gif_click res r <;>
    cases hb : res.doubleClickMusicPathExists <;>
      simp [hg, hb, play_gif, timerStartOp, audioPlayOp, audioSetSource, emit]

theorem clicked_on_enter_now (res : Resources) (r : Nat) (m : Machine) :
    (ClickedStateHandler.on_enter res r m).now = m.now := by
  unfold ClickedStateHandler.on_enter
  cases hg : MainLayer.random_gif_click res r <;>
    cases hb : res.doubleClickMusicPathExists <;>
      simp [hg, hb, play_gif, timerStartOp, audioPlayOp, audioSetSource, emit]

theorem clicked_on_exit_stack (m : Machine) :
    (ClickedStateHandler.on_exit m).stack = m.stack := rfl

theorem clicked_on_exit_now (m : Machine) :
    (ClickedStateHandler.on_exit m).now = m.now := rfl

theorem clicked_on_exit_timer_inactive (m : Machine) :
    (ClickedStateHandler.on_exit m).click_end_timer.active = false := rfl

theorem clicked_on_exit_audio_stopped (m : Machine) :
    (ClickedStateHandler.on_exit m).audio.playing = false := rfl

theorem handlerOnEnter_stack (res : Resources) (r : Nat) (s : PetState) (m : Machine) :
    (handlerOnEnter res r s m).stack = m.stack := by
  unfold handlerOnEnter
  cases s <;> simp [clicked_on_enter_stack]

theorem handlerOnEnter_now (res : Resources) (r : Nat) (s : PetState) (m : Machine) :
    (handlerOnEnter res r s m).now = m.now := by
  unfold handlerOnEnter
  cases s <;> simp [clicked_on_enter_now]

theorem handlerOnExit_stack (s : PetState) (m : Machine) :
    (handlerOnExit s m).stack = m.stack := by
  unfold handlerOnExit
  cases s <;> simp [clicked_on_exit_stack]

theorem handlerOnExit_now (s : PetState) (m : Machine) :
    (handlerOnExit s m).now = m.now := by
  unfold handlerOnExit
  cases s <;> simp [clicked_on_exit_now]

/-! ### Trace-extension lemmas: every lifecycle method appends only effects
of its own phase -/

theorem traceExtends_trans {ph : Phase} {m1 m2 m3 : Machine}
    (h12 : TraceExtends ph m1 m2) (h23 : TraceExtends ph m2 m3) :
    TraceExtends ph m1 m3 := by
  obtain ⟨l1, e1, p1⟩ := h12
  obtain ⟨l2, e2, p2⟩ := h23
  refine ⟨l1 ++ l2, ?_, ?_⟩
  · rw [e2, e1, List.append_assoc]
  · intro e he
    rcases List.mem_append.mp he with h | h
    · exact p1 e h
    · exact p2 e h

theorem traceExtends_clicked_on_enter (res : Resources) (r : Nat) (m : Machine) :
    TraceExtends (Phase.enterP PetState.CLICKED) m (ClickedStateHandler.on_enter res r m) := by
  unfold ClickedStateHandler.on_enter
  cases hg : MainLayer.random_gif_click res r with
  | none =>
    cases hb : res.doubleClickMusicPathExists with
    | false =>
      refine ⟨[], ?_, ?_⟩ <;> simp [hb]
    | true =>
      refine ⟨[⟨Phase.enterP PetState.CLICKED,
                SinkAction.audioSet ((MainLayer.random_music_doubleclick res r).getD "")⟩,
               ⟨Phase.enterP PetState.CLICKED, SinkAction.audioPlay⟩,
               ⟨Phase.enterP PetState.CLICKED, SinkAction.timerStart 18000⟩], ?_, ?_⟩ <;>
        simp [hb, timerStartOp, audioPlayOp, audioSetSource, emit]
  | some g =>
    cases hb : res.doubleClickMusicPathExists with
    | false =>
      refine ⟨[⟨Phase.enterP PetState.CLICKED, SinkAction.playGif g⟩], ?_, ?_⟩ <;>
        simp [hb, play_gif, emit]
    | true =>
      refine ⟨[⟨Phase.enterP PetState.CLICKED, SinkAction.playGif g⟩,
               ⟨Phase.enterP PetState.CLICKED,
                SinkAction.audioSet ((MainLayer.random_music_doubleclick res r).getD "")⟩,
               ⟨Phase.enterP PetState.CLICKED, SinkAction.audioPlay⟩,
               ⟨Phase.enterP PetState.CLICKED, SinkAction.timerStart 18000⟩], ?_, ?_⟩ <;>
        simp [hb, play_gif, timerStartOp, audioPlayOp, audioSetSource, emit]

theorem traceExtends_clicked_on_exit (m : Machine) :
    TraceExtends (Phase.exitP PetState.CLICKED) m (ClickedStateHandler.on_exit m) := by
  refine ⟨[⟨Phase.exitP PetState.CLICKED, SinkAction.timerStop⟩,
           ⟨Phase.exitP PetState.CLICKED, SinkAction.audioStop⟩], ?_, ?_⟩
  · simp [ClickedStateHandler.on_exit, audioStopOp, timerStopOp, emit]
  · simp

theorem traceExtends_handlerOnEnter (res : Resources) (r : Nat) (s : PetState) (m : Machine) :
    TraceExtends (Phase.enterP s) m (handlerOnEnter res r s m) := by
  unfold handlerOnEnter
  cases s
  case CLICKED =>
    exact traceExtends_trans ⟨[⟨_, SinkAction.mark⟩], rfl, by simp⟩
      (traceExtends_clicked_on_enter res r _)
  all_goals exact ⟨[⟨_, SinkAction.mark⟩], rfl, by simp⟩

theorem traceExtends_handlerOnExit (s : PetState) (m : Machine) :
    TraceExtends (Phase.exitP s) m (handlerOnExit s m) := by
  unfold handlerOnExit
  cases s
  case CLICKED =>
    exact traceExtends_trans ⟨[⟨_, SinkAction.mark⟩], rfl, by simp⟩
      (traceExtends_clicked_on_exit _)
  all_goals exact ⟨[⟨_, SinkAction.mark⟩], rfl, by simp⟩

theorem handlerOnEnter_mark_mem (res : Resources) (r : Nat) (s : PetState) (m : Machine) :
    (⟨Phase.enterP s, SinkAction.mark⟩ : TraceEvent) ∈ (handlerOnEnter res r s m).trace := by
  unfold handlerOnEnter
  cases s
  case CLICKED =>
    show (⟨Phase.enterP PetState.CLICKED, SinkAction.mark⟩ : TraceEvent) ∈
      (ClickedStateHandler.on_enter res r
        (emit (Phase.enterP PetState.CLICKED) SinkAction.mark m)).trace
    obtain ⟨l, he, -⟩ := traceExtends_clicked_on_enter res r
      (emit (Phase.enterP PetState.CLICKED) SinkAction.mark m)
    rw [he, emit_trace]
    simp
  all_goals simp [emit]

/-! ### Time advancing with an inactive timer moves only the clock -/

theorem advance_inactive (res : Resources) (r : Nat) (dt : Nat) (m : Machine)
    (h : m.click_end_timer.active = false) :
    Machine.advance res r dt m = { m with now := m.now + dt } := by
  unfold Machine.advance
  rw [if_neg]
  intro hc
  rw [h] at hc
  exact Bool.false_ne_true hc.1

theorem advances_inactive (res : Resources) (r : Nat) (dts : List Nat) (m : Machine)
    (h : m.click_end_timer.active = false) :
    Machine.advances res r dts m = { m with now := m.now + dts.sum } := by
  induction dts generalizing m with
  | nil => simp [Machine.advances]
  | cons dt dts ih =>
    rw [Machine.advances, advance_inactive res r dt m h,
      ih { m with now := m.now + dt } h, List.sum_cons, Nat.add_assoc]

/-! ### Stack shape lemmas for the engine operations -/

theorem pop_state_singleton (res : Resources) (r : Nat) (m : Machine) (s : PetState)
    (h : m.stack = [s]) :
    StateMachine.pop_state res r m = m := by
  unfold StateMachine.pop_state
  split
  · rename_i cur prev rest heq
    rw [h] at heq
    simp at heq
  · rfl

theorem applyOp_stack_ne_nil (res : Resources) (r : Nat) (m : Machine) (op : MachineOp)
    (h : m.stack ≠ []) :
    (Machine.applyOp res r m op).stack ≠ [] := by
  cases op with
  | push s =>
    simp [Machine.applyOp, StateMachine.push_state, handlerOnEnter_stack]
  | pop =>
    show (StateMachine.pop_state res r m).stack ≠ []
    unfold StateMachine.pop_state
    split
    · rename_i cur prev rest heq
      simp [handlerOnEnter_stack]
    · exact h
  | transition s =>
    show (StateMachine.transition_to res r s m).stack ≠ []
    unfold StateMachine.transition_to
    split
    · rename_i cur rest heq
      simp [handlerOnEnter_stack]
    · exact h

theorem runOps_stack_ne_nil (res : Resources) (r : Nat) (ops : List MachineOp) (m : Machine)
    (h : m.stack ≠ []) :
    (Machine.runOps res r m ops).stack ≠ [] := by
  induction ops generalizing m with
  | nil => exact h
  | cons op ops ih => exact ih _ (applyOp_stack_ne_nil res r m op h)

/-! ### Reduction lemmas for the engine operations -/

theorem transition_to_cons (res : Resources) (r : Nat) (s : PetState) (m : Machine)
    (A : PetState) (rest : List PetState) (h : m.stack = A :: rest) :
    StateMachine.transition_to res r s m =
      handlerOnEnter res r s { handlerOnExit A m with stack := s :: rest } := by
  unfold StateMachine.transition_to
  rw [h]

theorem pop_state_cons (res : Resources) (r : Nat) (m : Machine)
    (cur prev : PetState) (rest : List PetState) (h : m.stack = cur :: prev :: rest) :
    StateMachine.pop_state res r m =
      handlerOnEnter res r prev { handlerOnExit cur m with stack := prev :: rest } := by
  unfold StateMachine.pop_state
  rw [h]

theorem advance_fires (res : Resources) (r : Nat) (dt : Nat) (m : Machine)
    (hact : m.click_end_timer.active = true)
    (hdl : m.click_end_timer.deadline ≤ m.now + dt) :
    Machine.advance res r dt m =
      ClickedStateHandler.on_click_end res r
        { m with now := m.now + dt
                 click_end_timer := { m.click_end_timer with active := false } } := by
  unfold Machine.advance
  rw [if_pos ⟨hact, hdl⟩]

theorem on_click_end_clicked (res : Resources) (r : Nat) (m : Machine)
    (h : m.current_state = some PetState.CLICKED) :
    ClickedStateHandler.on_click_end res r m = StateMachine.pop_state res r m := by
  unfold ClickedStateHandler.on_click_end
  rw [if_pos h]

theorem handlerOnExit_clicked_timer (m : Machine) :
    (handlerOnExit PetState.CLICKED m).click_end_timer.active = false := rfl

theorem handlerOnExit_clicked_audio (m : Machine) :
    (handlerOnExit PetState.CLICKED m).audio.playing = false := rfl

theorem handlerOnEnter_dragging_timer (res : Resources) (r : Nat) (m : Machine) :
    (handlerOnEnter res r PetState.DRAGGING m).click_end_timer = m.click_end_timer := rfl

theorem random_gif_click_nil (res : Resources) (r : Nat) (hgif : res.clickGifs = []) :
    MainLayer.random_gif_click res r = none := by
  simp [MainLayer.random_gif_click, random_choice, hgif]

theorem clicked_on_enter_timer_music (res : Resources) (r : Nat) (m : Machine)
    (hmus : res.doubleClickMusicPathExists = true) :
    (ClickedStateHandler.on_enter res r m).click_end_timer =
      { active := true, deadline := m.now + 18000 } := by
  unfold ClickedStateHandler.on_enter
  cases hg : MainLayer.random_gif_click res r <;>
    simp [hg, hmus, play_gif, timerStartOp, audioPlayOp, audioSetSource, emit]

theorem clicked_on_enter_audio_music (res : Resources) (r : Nat) (m : Machine)
    (hmus : res.doubleClickMusicPathExists = true) :
    (ClickedStateHandler.on_enter res r m).audio.playing = true := by
  unfold ClickedStateHandler.on_enter
  cases hg : MainLayer.random_gif_click res r <;>
    simp [hg, hmus, play_gif, timerStartOp, audioPlayOp, audioSetSource, emit]

theorem clicked_on_enter_animation (res : Resources) (r : Nat) (m : Machine) :
    (ClickedStateHandler.on_enter res r m).animation =
      (match MainLayer.random_gif_click res r with
       | some g => some g
       | none => m.animation) := by
  unfold ClickedStateHandler.on_enter
  cases hg : MainLayer.random_gif_click res r <;>
    cases hb : res.doubleClickMusicPathExists <;>
      simp [hg, hb, play_gif, timerStartOp, audioPlayOp, audioSetSource, emit]

/-! ### Claim theorems -/

/-- C1: for every sequence of push_state/pop_state/transition_to
operations run from the initial machine, the state stack is never empty;
and pop_state on a machine whose stack holds exactly one element leaves
the machine — in particular the stack and the current state — unchanged:
the base state cannot be popped. -/
theorem C1_stack_never_empty_and_base_protected (res : Resources) (r : Nat)
    (ops : List MachineOp) (m : Machine) (s : PetState) (hm : m.stack = [s]) :
    (Machine.runOps res r initMachine ops).stack ≠ [] ∧
    StateMachine.pop_state res r m = m ∧
    (StateMachine.pop_state res r m).current_state = m.current_state := by
  refine ⟨runOps_stack_ne_nil res r ops initMachine (by simp [initMachine]), ?_, ?_⟩
  · exact pop_state_singleton res r m s hm
  · rw [pop_state_singleton res r m s hm]

/-- Witness for C1: a concrete operation sequence ending in two pops from
the initial machine, and a pop on the singleton initial stack. -/
theorem C1_witness :
    (Machine.runOps resEmpty 0 initMachine
        [MachineOp.push PetState.CLICKED, MachineOp.pop, MachineOp.pop]).stack ≠ [] ∧
    StateMachine.pop_state resEmpty 0 initMachine = initMachine ∧
    (StateMachine.pop_state resEmpty 0 initMachine).current_state =
      initMachine.current_state :=
  C1_stack_never_empty_and_base_protected resEmpty 0
    [MachineOp.push PetState.CLICKED, MachineOp.pop, MachineOp.pop]
    initMachine PetState.IDLE rfl

/-- C2: ClickedStateHandler.on_exit stops the pending click_end_timer and
stops audio playback; after it has run, any sequence of virtual-time
advances — in particular ones crossing the original 18000 ms deadline —
changes nothing but the clock, so the canceled callback never fires. -/
theorem C2_on_exit_reverses_and_cancels (res : Resources) (r : Nat) (m : Machine)
    (dts : List Nat) :
    (ClickedStateHandler.on_exit m).click_end_timer.active = false ∧
    (ClickedStateHandler.on_exit m).audio.playing = false ∧
    Machine.advances res r dts (ClickedStateHandler.on_exit m) =
      { ClickedStateHandler.on_exit m with
          now := (ClickedStateHandler.on_exit m).now + dts.sum } :=
  ⟨clicked_on_exit_timer_inactive m, clicked_on_exit_audio_stopped m,
   advances_inactive res r dts _ (clicked_on_exit_timer_inactive m)⟩

/-- C3: for every transition from state A to state B, the effect trace is
extended first only by events of the exit phase of A and then only by
events of the enter phase of B — the exit completes in full before the
enter begins and no effects interleave; moreover when A is CLICKED, the
machine handed to the enter of B already has the CLICKED timer inactive
and its audio stopped. -/
theorem C3_exit_completes_before_enter (res : Resources) (r : Nat) (B : PetState)
    (m : Machine) (A : PetState) (rest : List PetState) (h : m.stack = A :: rest) :
    (∃ lexit lenter,
      (StateMachine.transition_to res r B m).trace = m.trace ++ lexit ++ lenter ∧
      (∀ e ∈ lexit, e.phase = Phase.exitP A) ∧
      (∀ e ∈ lenter, e.phase = Phase.enterP B)) ∧
    (A = PetState.CLICKED →
      (handlerOnExit A m).click_end_timer.active = false ∧
      (handlerOnExit A m).audio.playing = false) := by
  constructor
  · obtain ⟨l1, e1, p1⟩ := traceExtends_handlerOnExit A m
    obtain ⟨l2, e2, p2⟩ :=
      traceExtends_handlerOnEnter res r B { handlerOnExit A m with stack := B :: rest }
    refine ⟨l1, l2, ?_, p1, p2⟩
    rw [transition_to_cons res r B m A rest h, e2]
    show (handlerOnExit A m).trace ++ l2 = m.trace ++ l1 ++ l2
    rw [e1, List.append_assoc]
  · intro hA
    subst hA
    exact ⟨handlerOnExit_clicked_timer m, handlerOnExit_clicked_audio m⟩

/-- Witness for C3: the transition CLICKED to DRAGGING on the concrete
armed machine. -/
theorem C3_witness :
    (∃ lexit lenter,
      (StateMachine.transition_to resFull 0 PetState.DRAGGING mClicked).trace =
        mClicked.trace ++ lexit ++ lenter ∧
      (∀ e ∈ lexit, e.phase = Phase.exitP PetState.CLICKED) ∧
      (∀ e ∈ lenter, e.phase = Phase.enterP PetState.DRAGGING)) ∧
    (PetState.CLICKED = PetState.CLICKED →
      (handlerOnExit PetState.CLICKED mClicked).click_end_timer.active = false ∧
      (handlerOnExit PetState.CLICKED mClicked).audio.playing = false) :=
  C3_exit_completes_before_enter resFull 0 PetState.DRAGGING mClicked
    PetState.CLICKED [PetState.IDLE] rfl

/-- C4 counterexample: in CLICKED (above IDLE) with the expiry timer
armed, a new left press does not push DRAGGING above a suspended CLICKED:
the resulting stack is [DRAGGING, IDLE], CLICKED is nowhere on it, and it
differs from the nested stack a push would produce. -/
theorem C4_counterexample :
    ((ClickedStateHandler.handle_event resEmpty 0
        (Event.mouse MouseEventType.MouseButtonPress MouseButton.LeftButton)
        mClicked).1.stack = [PetState.DRAGGING, PetState.IDLE]) ∧
    PetState.CLICKED ∉
      (ClickedStateHandler.handle_event resEmpty 0
        (Event.mouse MouseEventType.MouseButtonPress MouseButton.LeftButton)
        mClicked).1.stack ∧
    (ClickedStateHandler.handle_event resEmpty 0
        (Event.mouse MouseEventType.MouseButtonPress MouseButton.LeftButton)
        mClicked).1.stack ≠
      [PetState.DRAGGING, PetState.CLICKED, PetState.IDLE] := by
  decide

/-- C4 (amended): while the machine is in CLICKED, a new left-button press
arriving before the expiry timer fires consumes the event, cancels the
timer, and replaces CLICKED with DRAGGING at the top of the stack (a
lateral transition_to, not a push — CLICKED is exited, not suspended); the
canceled CLICKED timer does not fire later: any subsequent advances move
only the clock. -/
theorem C4_press_cancels_timer_and_replaces_with_dragging (res : Resources) (r : Nat)
    (m : Machine) (rest : List PetState) (dts : List Nat)
    (h : m.stack = PetState.CLICKED :: rest) :
    (ClickedStateHandler.handle_event res r
        (Event.mouse MouseEventType.MouseButtonPress MouseButton.LeftButton) m).2 = true ∧
    (ClickedStateHandler.handle_event res r
        (Event.mouse MouseEventType.MouseButtonPress MouseButton.LeftButton) m).1.stack =
      PetState.DRAGGING :: rest ∧
    (ClickedStateHandler.handle_event res r
        (Event.mouse MouseEventType.MouseButtonPress MouseButton.LeftButton)
        m).1.click_end_timer.active = false ∧
    Machine.advances res r dts
        (ClickedStateHandler.handle_event res r
          (Event.mouse MouseEventType.MouseButtonPress MouseButton.LeftButton) m).1 =
      { (ClickedStateHandler.handle_event res r
          (Event.mouse MouseEventType.MouseButtonPress MouseButton.LeftButton) m).1 with
          now := (ClickedStateHandler.handle_event res r
            (Event.mouse MouseEventType.MouseButtonPress MouseButton.LeftButton) m).1.now +
              dts.sum } := by
  have hev : ClickedStateHandler.handle_event res r
      (Event.mouse MouseEventType.MouseButtonPress MouseButton.LeftButton) m =
      (StateMachine.transition_to res r PetState.DRAGGING m, true) := rfl
  have htr := transition_to_cons res r PetState.DRAGGING m PetState.CLICKED rest h
  have htimer : (StateMachine.transition_to res r PetState.DRAGGING m).click_end_timer.active
      = false := by
    rw [htr, handlerOnEnter_dragging_timer]
    exact handlerOnExit_clicked_timer m
  refine ⟨by rw [hev], ?_, ?_, ?_⟩
  · rw [hev, htr]
    simp [handlerOnEnter_stack]
  · rw [hev]
    exact htimer
  · rw [hev]
    exact advances_inactive res r dts _ htimer

/-- Witness for C4 (amended): the concrete armed CLICKED machine, a left
press, then an advance far past the original deadline. -/
theorem C4_witness :
    (ClickedStateHandler.handle_event resFull 0
        (Event.mouse MouseEventType.MouseButtonPress MouseButton.LeftButton) mClicked).2 = true ∧
    (ClickedStateHandler.handle_event resFull 0
        (Event.mouse MouseEventType.MouseButtonPress MouseButton.LeftButton) mClicked).1.stack =
      PetState.DRAGGING :: [PetState.IDLE] ∧
    (ClickedStateHandler.handle_event resFull 0
        (Event.mouse MouseEventType.MouseButtonPress MouseButton.LeftButton)
        mClicked).1.click_end_timer.active = false ∧
    Machine.advances resFull 0 [20000]
        (ClickedStateHandler.handle_event resFull 0
          (Event.mouse MouseEventType.MouseButtonPress MouseButton.LeftButton) mClicked).1 =
      { (ClickedStateHandler.handle_event resFull 0
          (Event.mouse MouseEventType.MouseButtonPress MouseButton.LeftButton) mClicked).1 with
          now := (ClickedStateHandler.handle_event resFull 0
            (Event.mouse MouseEventType.MouseButtonPress MouseButton.LeftButton) mClicked).1.now +
              [20000].sum } :=
  C4_press_cancels_timer_and_replaces_with_dragging resFull 0 mClicked
    [PetState.IDLE] [20000] rfl

/-- C5 counterexample: with the DoubleClick music path missing (though a
Click gif exists), entering CLICKED does not start the 18000 ms expiry
timer, and after 18000 ms with no further input the machine still sits in
CLICKED — no auto-pop happens. -/
theorem C5_counterexample :
    (StateMachine.push_state resNoMusic 0 PetState.CLICKED initMachine).click_end_timer.active
      = false ∧
    (Machine.advance resNoMusic 0 18000
        (StateMachine.push_state resNoMusic 0 PetState.CLICKED initMachine)).stack =
      [PetState.CLICKED, PetState.IDLE] := by
  decide

/-- C5 (amended): when the machine enters CLICKED and the DoubleClick
music path exists, on_enter starts audio playback and the single-shot
18000 ms expiry timer, and plays a randomly chosen Click gif when one
exists (keeping the prior animation otherwise); with no further input the
machine auto-pops back to the previous state 18000 ms later.  When the
music path is missing the timer is not started (see the counterexample). -/
theorem C5_enter_starts_timer_and_autopops (res : Resources) (r : Nat) (m : Machine)
    (prev : PetState) (rest : List PetState)
    (hmus : res.doubleClickMusicPathExists = true) (hstack : m.stack = prev :: rest) :
    (StateMachine.push_state res r PetState.CLICKED m).click_end_timer =
      { active := true, deadline := m.now + 18000 } ∧
    (StateMachine.push_state res r PetState.CLICKED m).audio.playing = true ∧
    (StateMachine.push_state res r PetState.CLICKED m).animation =
      (match MainLayer.random_gif_click res r with
       | some g => some g
       | none => m.animation) ∧
    (Machine.advance res r 18000
        (StateMachine.push_state res r PetState.CLICKED m)).stack = prev :: rest := by
  have hpush : StateMachine.push_state res r PetState.CLICKED m =
      ClickedStateHandler.on_enter res r
        (emit (Phase.enterP PetState.CLICKED) SinkAction.mark
          { m with stack := PetState.CLICKED :: m.stack }) := rfl
  have htimer : (StateMachine.push_state res r PetState.CLICKED m).click_end_timer =
      { active := true, deadline := m.now + 18000 } := by
    rw [hpush, clicked_on_enter_timer_music res r _ hmus]
    rfl
  have hstack1 : (StateMachine.push_state res r PetState.CLICKED m).stack =
      PetState.CLICKED :: prev :: rest := by
    rw [StateMachine.push_state, handlerOnEnter_stack]
    show PetState.CLICKED :: m.stack = PetState.CLICKED :: prev :: rest
    rw [hstack]
  have hnow : (StateMachine.push_state res r PetState.CLICKED m).now = m.now := by
    rw [StateMachine.push_state, handlerOnEnter_now]
  refine ⟨htimer, ?_, ?_, ?_⟩
  · rw [hpush]
    exact clicked_on_enter_audio_music res r _ hmus
  · rw [hpush, clicked_on_enter_animation]
    rfl
  · rw [advance_fires res r 18000 _ (by rw [htimer]) (by rw [htimer, hnow])]
    rw [on_click_end_clicked _ _ _ (by simp [Machine.current_state, hstack1])]
    rw [pop_state_cons _ _ _ PetState.CLICKED prev rest (by simp [hstack1])]
    simp [handlerOnEnter_stack]

/-- Witness for C5 (amended): entering CLICKED from the initial machine
with the full resource fixture auto-pops back to IDLE after 18000 ms. -/
theorem C5_witness :
    (StateMachine.push_state resFull 0 PetState.CLICKED initMachine).click_end_timer =
      { active := true, deadline := initMachine.now + 18000 } ∧
    (StateMachine.push_state resFull 0 PetState.CLICKED initMachine).audio.playing = true ∧
    (StateMachine.push_state resFull 0 PetState.CLICKED initMachine).animation =
      (match MainLayer.random_gif_click resFull 0 with
       | some g => some g
       | none => initMachine.animation) ∧
    (Machine.advance resFull 0 18000
        (StateMachine.push_state resFull 0 PetState.CLICKED initMachine)).stack =
      PetState.IDLE :: [] :=
  C5_enter_starts_timer_and_autopops resFull 0 initMachine PetState.IDLE [] rfl rfl

/-- C6: when the armed expiry timer fires while the machine is still in
CLICKED, the machine pops CLICKED off the stack, the previous state becomes
the top again, and that previous state is re-entered (its enter mark is
recorded). -/
theorem C6_timer_fire_pops_to_previous (res : Resources) (r : Nat) (m : Machine)
    (prev : PetState) (rest : List PetState) (dt : Nat)
    (hstack : m.stack = PetState.CLICKED :: prev :: rest)
    (hact : m.click_end_timer.active = true)
    (hdl : m.click_end_timer.deadline ≤ m.now + dt) :
    (Machine.advance res r dt m).stack = prev :: rest ∧
    (⟨Phase.enterP prev, SinkAction.mark⟩ : TraceEvent) ∈
      (Machine.advance res r dt m).trace := by
  rw [advance_fires res r dt m hact hdl]
  have hcur : ({ m with now := m.now + dt,
                        click_end_timer :=
                          { m.click_end_timer with active := false } } : Machine).current_state
      = some PetState.CLICKED := by
    simp [Machine.current_state, hstack]
  rw [on_click_end_clicked _ _ _ hcur]
  rw [pop_state_cons _ _ _ PetState.CLICKED prev rest (by simp [hstack])]
  exact ⟨by simp [handlerOnEnter_stack], handlerOnEnter_mark_mem res r prev _⟩

/-- Witness for C6: the concrete armed CLICKED machine after an 18000 ms
advance pops back to IDLE and re-enters it. -/
theorem C6_witness :
    (Machine.advance resFull 0 18000 mClicked).stack = PetState.IDLE :: [] ∧
    (⟨Phase.enterP PetState.IDLE, SinkAction.mark⟩ : TraceEvent) ∈
      (Machine.advance resFull 0 18000 mClicked).trace :=
  C6_timer_fire_pops_to_previous resFull 0 mClicked PetState.IDLE [] 18000
    rfl rfl (by decide)

theorem clicked_on_enter_no_assets (res : Resources) (r : Nat) (m : Machine)
    (hgif : res.clickGifs = []) (hmus : res.doubleClickMusicPathExists = false) :
    ClickedStateHandler.on_enter res r m = m := by
  unfold ClickedStateHandler.on_enter
  rw [random_gif_click_nil res r hgif]
  simp [hmus]

/-- C7: when the Click asset is unresolvable (no gif file) and the
DoubleClick music path is missing, entering CLICKED completes without
raising (it is a total function here): the machine remains in the target
state CLICKED, the prior animation and audio are unchanged, no playback
request is issued (the appended trace holds only the lifecycle mark), and
no fallback transition is forced. -/
theorem C7_missing_asset_graceful (res : Resources) (r : Nat) (m : Machine)
    (hgif : res.clickGifs = []) (hmus : res.doubleClickMusicPathExists = false) :
    (StateMachine.push_state res r PetState.CLICKED m).stack =
      PetState.CLICKED :: m.stack ∧
    (StateMachine.push_state res r PetState.CLICKED m).animation = m.animation ∧
    (StateMachine.push_state res r PetState.CLICKED m).audio = m.audio ∧
    (StateMachine.push_state res r PetState.CLICKED m).click_end_timer =
      m.click_end_timer ∧
    (StateMachine.push_state res r PetState.CLICKED m).trace =
      m.trace ++ [⟨Phase.enterP PetState.CLICKED, SinkAction.mark⟩] := by
  have hon : StateMachine.push_state res r PetState.CLICKED m =
      ClickedStateHandler.on_enter res r
        (emit (Phase.enterP PetState.CLICKED) SinkAction.mark
          { m with stack := PetState.CLICKED :: m.stack }) := rfl
  rw [hon, clicked_on_enter_no_assets res r _ hgif hmus]
  exact ⟨rfl, rfl, rfl, rfl, rfl⟩

/-- Witness for C7: pushing CLICKED on the initial machine with the empty
resource fixture. -/
theorem C7_witness :
    (StateMachine.push_state resEmpty 0 PetState.CLICKED initMachine).stack =
      PetState.CLICKED :: initMachine.stack ∧
    (StateMachine.push_state resEmpty 0 PetState.CLICKED initMachine).animation =
      initMachine.animation ∧
    (StateMachine.push_state resEmpty 0 PetState.CLICKED initMachine).audio =
      initMachine.audio ∧
    (StateMachine.push_state resEmpty 0 PetState.CLICKED initMachine).click_end_timer =
      initMachine.click_end_timer ∧
    (StateMachine.push_state resEmpty 0 PetState.CLICKED initMachine).trace =
      initMachine.trace ++ [⟨Phase.enterP PetState.CLICKED, SinkAction.mark⟩] :=
  C7_missing_asset_graceful resEmpty 0 initMachine rfl rfl

/-- C8: once update_config applies a configuration with random movement
disallowed, any subsequent sequence of autonomous idle-wander timer
firings leaves the handler state unchanged — no autonomous RANDOM_MOVE
behavior switch ever occurs. -/
theorem C8_config_false_suppresses_wander (st : WanderState) (rs : List Nat) :
    RandomMoveHandler.run_timers rs
        (RandomMoveHandler.update_config { allow_random_movement := false } st) =
      RandomMoveHandler.update_config { allow_random_movement := false } st := by
  induction rs with
  | nil => rfl
  | cons r rs ih =>
    rw [RandomMoveHandler.run_timers]
    have hstep : RandomMoveHandler.on_timer r
        (RandomMoveHandler.update_config { allow_random_movement := false } st) =
        RandomMoveHandler.update_config { allow_random_movement := false } st := rfl
    rw [hstep, ih]

/-- C9: the timer callback, executed when the current state is no longer
CLICKED, performs no state-machine operation: the machine — in particular
its state stack and current state — is left unchanged. -/
theorem C9_callback_guarded_outside_clicked (res : Resources) (r : Nat) (m : Machine)
    (h : m.current_state ≠ some PetState.CLICKED) :
    ClickedStateHandler.on_click_end res r m = m ∧
    (ClickedStateHandler.on_click_end res r m).stack = m.stack ∧
    (ClickedStateHandler.on_click_end res r m).current_state = m.current_state := by
  have he : ClickedStateHandler.on_click_end res r m = m := by
    unfold ClickedStateHandler.on_click_end
    rw [if_neg h]
  exact ⟨he, by rw [he], by rw [he]⟩

/-- Witness for C9: the callback on the initial machine, whose current
state is IDLE. -/
theorem C9_witness :
    ClickedStateHandler.on_click_end resFull 0 initMachine = initMachine ∧
    (ClickedStateHandler.on_click_end resFull 0 initMachine).stack =
      initMachine.stack ∧
    (ClickedStateHandler.on_click_end resFull 0 initMachine).current_state =
      initMachine.current_state :=
  C9_callback_guarded_outside_clicked resFull 0 initMachine (by decide)

/-- C10: ClickedStateHandler.handle_event consumes an event exactly when
it is a mouse press of the left button; every other event — non-mouse
events, non-press mouse events, presses of other buttons — is returned
unconsumed with the machine untouched (no transition requested). -/
theorem C10_handle_event_iff_left_press (res : Resources) (r : Nat) (m : Machine)
    (e : Event) :
    ((ClickedStateHandler.handle_event res r e m).2 = true ↔
      e = Event.mouse MouseEventType.MouseButtonPress MouseButton.LeftButton) ∧
    (e ≠ Event.mouse MouseEventType.MouseButtonPress MouseButton.LeftButton →
      ClickedStateHandler.handle_event res r e m = (m, false)) := by
  cases e with
  | nonMouse =>
    simp [ClickedStateHandler.handle_event]
  | mouse ty btn =>
    cases ty <;> cases btn <;>
      simp [ClickedStateHandler.handle_event, ClickedStateHandler.handle_mouse_press]

/-- Witness for C10: a right-button press is not consumed and leaves the
machine untouched. -/
theorem C10_witness :
    ClickedStateHandler.handle_event resFull 0
        (Event.mouse MouseEventType.MouseButtonPress MouseButton.RightButton) initMachine =
      (initMachine, false) :=
  (C10_handle_event_iff_left_press resFull 0 initMachine
      (Event.mouse MouseEventType.MouseButtonPress MouseButton.RightButton)).2
    (by decide)
